import Mathlib

/-!
Verification development for the CityDrivingSim repository.

The vehicle-dynamics, control-smoothing and simulation-loop code of the
repository is shallowly embedded here.  Machine `number` arithmetic is
modelled twice:

* a rational-number (`ℚ`) model, the exact real-arithmetic semantics of the
  formulas in `src/core/vehicle/Car.ts`, `src/core/vehicle/CarControls.ts`,
  `src/core/DrivingSimulator.ts` and `src/core/scene/SceneManager.ts`;
  transcendental library functions (`Math.sin`, `Math.cos`, `Math.tan`,
  `Math.exp`) are threaded through as an arbitrary function pack `MathFns`,
  so every theorem quantifying over a `MathFns` holds for every possible
  interpretation of those library functions;

* an extended-value model `JsVal` (`ℚ` together with `NaN`, `+Infinity`,
  `-Infinity`) with the JavaScript propagation rules for arithmetic,
  comparison, `Math.min`/`Math.max`/`Math.abs`/`Math.sign`, used to settle
  the claims about non-finite values in `Car.update`.
-/

namespace CityDrivingSim

/-- A 3-component vector of rationals (THREE.Vector3 with exact scalars). -/
structure Vec3 where
  x : ℚ
  y : ℚ
  z : ℚ
deriving DecidableEq

/-- A quaternion with rational components (THREE.Quaternion with exact scalars). -/
structure Quat where
  x : ℚ
  y : ℚ
  z : ℚ
  w : ℚ
deriving DecidableEq

/-- Interpretations of the JavaScript `Math` library functions used by the
embedded code.  Theorems quantify over this pack, so they hold for every
interpretation of `Math.sin`, `Math.cos`, `Math.tan` and `Math.exp`. -/
structure MathFns where
  sinF : ℚ → ℚ
  cosF : ℚ → ℚ
  tanF : ℚ → ℚ
  expF : ℚ → ℚ

/-- Source `THREE.MathUtils.clamp(value, min, max) = Math.max(min, Math.min(max, value))`. -/
def clampQ (value lo hi : ℚ) : ℚ :=
  max lo (min hi value)

/-- Source `Math.sign` on an exact rational. -/
def signQ (v : ℚ) : ℚ :=
  if 0 < v then 1 else if v < 0 then -1 else 0

/-- Source `THREE.Vector3.add`. -/
def Vec3.add (a b : Vec3) : Vec3 :=
  ⟨a.x + b.x, a.y + b.y, a.z + b.z⟩

/-- Source `THREE.Vector3.multiplyScalar`. -/
def Vec3.multiplyScalar (a : Vec3) (s : ℚ) : Vec3 :=
  ⟨a.x * s, a.y * s, a.z * s⟩

/-- Source `THREE.Vector3.applyQuaternion` (three.js formula:
`t = 2 (q.xyz × v)`, `v' = v + q.w t + q.xyz × t`). -/
def Vec3.applyQuaternion (v : Vec3) (q : Quat) : Vec3 :=
  let tx := 2 * (q.y * v.z - q.z * v.y)
  let ty := 2 * (q.z * v.x - q.x * v.z)
  let tz := 2 * (q.x * v.y - q.y * v.x)
  ⟨v.x + q.w * tx + q.y * tz - q.z * ty,
   v.y + q.w * ty + q.z * tx - q.x * tz,
   v.z + q.w * tz + q.x * ty - q.y * tx⟩

/-- The identity quaternion `new THREE.Quaternion()`. -/
def Quat.identity : Quat := ⟨0, 0, 0, 1⟩

/-- Source `THREE.Quaternion.multiply` (Hamilton product `a * b`, three.js
`multiplyQuaternions`). -/
def Quat.mulQ (a b : Quat) : Quat :=
  ⟨a.x * b.w + a.w * b.x + a.y * b.z - a.z * b.y,
   a.y * b.w + a.w * b.y + a.z * b.x - a.x * b.z,
   a.z * b.w + a.w * b.z + a.x * b.y - a.y * b.x,
   a.w * b.w - a.x * b.x - a.y * b.y - a.z * b.z⟩

/-- Source `THREE.Quaternion.setFromAxisAngle` (axis assumed normalised):
`s = sin(angle/2)`, `q = (axis.x s, axis.y s, axis.z s, cos(angle/2))`. -/
def Quat.setFromAxisAngle (M : MathFns) (axis : Vec3) (angle : ℚ) : Quat :=
  let halfAngle := angle / 2
  let s := M.sinF halfAngle
  ⟨axis.x * s, axis.y * s, axis.z * s, M.cosF halfAngle⟩

/-- The physics state owned by `Car` (src/core/vehicle/Car.ts, fields of the
class that `update`, the setters and `resetPhysics` read or write).  Mesh and
audio handles are rendering-only and omitted. -/
structure CarState where
  position : Vec3
  rotation : Quat
  speed : ℚ
  throttleInput : ℚ
  brakeInput : ℚ
  steeringAngle : ℚ
  handbrakeActive : Bool
  isBoosting : Bool
  boostAmount : ℚ
deriving DecidableEq

namespace Car

/-- Source `maxSpeed = 160` m/s. -/
def maxSpeed : ℚ := 160
/-- Source `maxAcceleration = 24` m/s². -/
def maxAcceleration : ℚ := 24
/-- Source `wheelBase = 2.6`. -/
def wheelBase : ℚ := 13 / 5
/-- Source `dragCoefficient = 0.02`. -/
def dragCoefficient : ℚ := 1 / 50
/-- Source `rollingResistance = 0.2`. -/
def rollingResistance : ℚ := 1 / 5
/-- Source `engineBraking = 0.6`. -/
def engineBraking : ℚ := 3 / 5
/-- Source `maxBrakeDecel = 18`. -/
def maxBrakeDecel : ℚ := 18
/-- Source `maxReverseSpeed = 14`. -/
def maxReverseSpeed : ℚ := 14
/-- Source `driftSteeringMultiplier = 1.5`. -/
def driftSteeringMultiplier : ℚ := 3 / 2
/-- Source `boostMultiplier = 2.0`. -/
def boostMultiplier : ℚ := 2
/-- Source `boostMaxSpeed = 90` m/s. -/
def boostMaxSpeed : ℚ := 90
/-- Source `boostDrainRate = 30` per second. -/
def boostDrainRate : ℚ := 30
/-- Source `boostRegenRate = 15` per second. -/
def boostRegenRate : ℚ := 15

/-- The state built by the `Car` constructor: `position = (0, 0.25, 0)`,
identity rotation, and the field initialisers (`speed = 0`, inputs `0`,
`steeringAngle = 0`, `handbrakeActive = false`, `isBoosting = false`,
`boostAmount = 100`). -/
def init : CarState :=
  { position := ⟨0, 1 / 4, 0⟩
    rotation := Quat.identity
    speed := 0
    throttleInput := 0
    brakeInput := 0
    steeringAngle := 0
    handbrakeActive := false
    isBoosting := false
    boostAmount := 100 }

/-- The boost drain/regen paragraph of `Car.update`
(src/core/vehicle/Car.ts lines 369-377): returns the new
`(isBoosting, boostAmount)`. -/
def boostStep (s : CarState) (delta : ℚ) : Bool × ℚ :=
  if s.isBoosting = true ∧ 0 < s.boostAmount then
    let b := max 0 (s.boostAmount - boostDrainRate * delta)
    (if b ≤ 0 then false else s.isBoosting, b)
  else if s.isBoosting = false ∧ s.boostAmount < 100 then
    (s.isBoosting, min 100 (s.boostAmount + boostRegenRate * delta))
  else
    (s.isBoosting, s.boostAmount)

/-- The clamp and snap-to-zero tail of the longitudinal paragraph of
`Car.update` (src/core/vehicle/Car.ts lines 403-414): the two
direction-dependent clamps followed by the stop-very-slow-movement snap,
applied to the integrated speed `speed1`. -/
def clampSpeed (effectiveMaxSpeed throttle speed1 : ℚ) : ℚ :=
  -- Clamp speed
  let speed2 := if 0 ≤ throttle then min speed1 effectiveMaxSpeed else speed1
  let speed3 := if throttle ≤ 0 then max speed2 (-maxReverseSpeed) else speed2
  -- Stop very slow movement
  if |speed3| < 1 / 20 ∧ |throttle| < 1 / 20 then 0 else speed3

/-- The longitudinal paragraph of `Car.update` (src/core/vehicle/Car.ts lines
379-414), given the post-drain boost flag: acceleration integration followed
by `clampSpeed`.  Returns the new `speed`. -/
def speedStep (isBoosting : Bool) (s : CarState) (delta : ℚ) : ℚ :=
  -- Determine effective max speed (with boost)
  let effectiveMaxSpeed := if isBoosting = true then boostMaxSpeed else maxSpeed
  -- Compute longitudinal acceleration (engine, drag, rolling, braking)
  let throttle := clampQ s.throttleInput (-1) 1
  let brake := clampQ s.brakeInput 0 1
  let speedSign := if s.speed = 0 then (if 0 ≤ throttle then 1 else -1) else signQ s.speed
  let boostAccelMultiplier := if isBoosting = true then boostMultiplier else 1
  let engineAccel0 := throttle * maxAcceleration * boostAccelMultiplier
  let engineAccel := if throttle < 0 then engineAccel0 * (3 / 5) else engineAccel0
  let drag := dragCoefficient * s.speed * |s.speed|
  let rolling := rollingResistance * s.speed
  let engineBrake := if |throttle| < 1 / 20 then engineBraking * speedSign else 0
  let brakeDecel := brake * maxBrakeDecel * speedSign
  let netAccel := engineAccel - drag - rolling - engineBrake - brakeDecel
  let speed1 := s.speed + netAccel * delta
  clampSpeed effectiveMaxSpeed throttle speed1

/-- The handbrake sideways-slide paragraph of `Car.update`
(src/core/vehicle/Car.ts lines 416-423), applied to the position with the
already-updated `speed`. -/
def slideStep (s : CarState) (speed delta : ℚ) : Vec3 :=
  if s.handbrakeActive = true ∧ 2 < |speed| ∧ 1 / 100 < |s.steeringAngle| then
    let sideDirection := Vec3.applyQuaternion ⟨1, 0, 0⟩ s.rotation
    let slideAmount := s.steeringAngle * |speed| * (3 / 200) * delta
    s.position.add (sideDirection.multiplyScalar slideAmount)
  else s.position

/-- The bicycle-model steering paragraph of `Car.update`
(src/core/vehicle/Car.ts lines 429-439) with the already-updated `speed`.
Note that the exact-arithmetic convention `x / 0 = 0` of `ℚ` gives the same
angular velocity as JavaScript (`2.6 / 0 = Infinity` followed by
`speed / Infinity = 0`). -/
def steeringStep (M : MathFns) (s : CarState) (speed delta : ℚ) : Quat :=
  if 1 / 1000 < |s.steeringAngle| ∧ 1 / 10 < |speed| then
    let steeringMultiplier := if s.handbrakeActive = true then driftSteeringMultiplier else 1
    let turnRadius := wheelBase / M.tanF s.steeringAngle
    let angularVelocity := speed / turnRadius * steeringMultiplier
    Quat.mulQ s.rotation (Quat.setFromAxisAngle M ⟨0, 1, 0⟩ (angularVelocity * delta))
  else s.rotation

/-- Source `Car.update(delta)` (src/core/vehicle/Car.ts lines 368-447) in exact
rational arithmetic, assembled from the per-paragraph steps above exactly in
source order; the movement direction is taken from the pre-steering rotation,
as in the source.  The trailing mesh/wheel animation (lines 445-479) only
mirrors `position`/`rotation`/`steeringAngle` into scene objects and is
omitted. -/
def update (M : MathFns) (s : CarState) (delta : ℚ) : CarState :=
  let boostPair := boostStep s delta
  let speed := speedStep boostPair.1 s delta
  let position1 := slideStep s speed delta
  let direction := Vec3.applyQuaternion ⟨0, 0, 1⟩ s.rotation
  let rotation := steeringStep M s speed delta
  -- Move forward/backward
  let movement := direction.multiplyScalar (speed * delta)
  { s with
      position := position1.add movement
      rotation := rotation
      speed := speed
      isBoosting := boostPair.1
      boostAmount := boostPair.2 }

/-- Source `Car.setThrottle(value)`. -/
def setThrottle (s : CarState) (value : ℚ) : CarState :=
  { s with throttleInput := max (-1) (min 1 value) }

/-- Source `Car.setBrake(value)`. -/
def setBrake (s : CarState) (value : ℚ) : CarState :=
  { s with brakeInput := max 0 (min 1 value) }

/-- Source `Car.setSteering(angle)`; `maxSteeringAngle = π/4` is irrational, so it is
passed as a parameter. -/
def setSteering (maxSteeringAngle : ℚ) (s : CarState) (angle : ℚ) : CarState :=
  { s with steeringAngle := max (-maxSteeringAngle) (min maxSteeringAngle angle) }

/-- Source `Car.setBoost(active)`. -/
def setBoost (s : CarState) (active : Bool) : CarState :=
  if active = true ∧ 0 < s.boostAmount then
    { s with isBoosting := true }
  else
    { s with isBoosting := false }

/-- Source `Car.setHandbrake(active)`. -/
def setHandbrake (s : CarState) (active : Bool) : CarState :=
  { s with handbrakeActive := active }

/-- Source `Car.setPosition(x, y, z)`. -/
def setPosition (s : CarState) (x y z : ℚ) : CarState :=
  { s with position := ⟨x, y, z⟩ }

/-- Source `Car.setRotation(y)`: heading set from axis `(0,1,0)` and angle `y`,
steering reset to `0` (src/core/vehicle/Car.ts lines 545-551). -/
def setRotation (M : MathFns) (s : CarState) (y : ℚ) : CarState :=
  { s with
      rotation := Quat.setFromAxisAngle M ⟨0, 1, 0⟩ y
      steeringAngle := 0 }

/-- Source `Car.setSpeed(speed)`. -/
def setSpeed (s : CarState) (speed : ℚ) : CarState :=
  { s with speed := speed, throttleInput := 0, brakeInput := 0 }

/-- Source `Car.resetPhysics()` (src/core/vehicle/Car.ts lines 562-569). -/
def resetPhysics (s : CarState) : CarState :=
  { s with
      speed := 0
      throttleInput := 0
      brakeInput := 0
      steeringAngle := 0
      handbrakeActive := false
      isBoosting := false }

/-- A sequence of consecutive `Car.update` calls with the given frame
deltas. -/
def updateSeq (M : MathFns) (s : CarState) : List ℚ → CarState
  | [] => s
  | delta :: rest => updateSeq M (update M s delta) rest

end Car

/-- A fixed interpretation of the `Math` library functions, used to build
concrete witnesses and counterexamples (`sin := 0`, `cos := 1`, `tan := 0`,
`exp := 0`). -/
def mathFnsW : MathFns :=
  { sinF := fun _ => 0
    cosF := fun _ => 1
    tanF := fun _ => 0
    expF := fun _ => 0 }

/-- Source `THREE.MathUtils.lerp(x, y, t) = (1 - t) * x + t * y`. -/
def lerpQ (x y t : ℚ) : ℚ :=
  (1 - t) * x + t * y

/-- Source `THREE.MathUtils.damp(x, y, lambda, dt) = lerp(x, y, 1 - exp(-lambda * dt))`. -/
def dampQ (M : MathFns) (x y lambda dt : ℚ) : ℚ :=
  lerpQ x y (1 - M.expF (-lambda * dt))

/-- The raw key state captured by `CarControls` (the `InputState` record). -/
structure InputKeys where
  forward : Bool
  backward : Bool
  left : Bool
  right : Bool
  brake : Bool
  boost : Bool
  handbrake : Bool
deriving DecidableEq

/-- The smoothed control state owned by `CarControls`
(src/core/vehicle/CarControls.ts): damped throttle/brake/steering inputs and
the smoothed camera orbit angles. -/
structure ControlsState where
  throttleInput : ℚ
  brakeInput : ℚ
  steeringInput : ℚ
  cameraAngle : ℚ
  cameraPitch : ℚ
  cameraAngleTarget : ℚ
  cameraPitchTarget : ℚ
deriving DecidableEq

namespace CarControls

/-- Source `throttleRiseRate = 3.5`. -/
def throttleRiseRate : ℚ := 7 / 2
/-- Source `throttleFallRate = 5.0`. -/
def throttleFallRate : ℚ := 5
/-- Source `brakeRiseRate = 6.0`. -/
def brakeRiseRate : ℚ := 6
/-- Source `brakeFallRate = 8.0`. -/
def brakeFallRate : ℚ := 8
/-- Source `steerRate = 6.0`. -/
def steerRate : ℚ := 6
/-- Source `steerReturnRate = 8.0`. -/
def steerReturnRate : ℚ := 8
/-- Source `cameraSmoothRate = 10`. -/
def cameraSmoothRate : ℚ := 10

/-- Source `CarControls.update(delta)` (src/core/vehicle/CarControls.ts lines
227-273 and the final `this.car.update(delta)` on line 361).
`isStartupPlaying` abstracts the query against the startup
`HTMLAudioElement` (lines 232-235); `maxSteeringAngle` is the car's
`π/4` constant, passed as a parameter.  The sound-effect blocks (lines
275-358) only drive the audio generators and the startup-sound bookkeeping
and do not touch the control intent or the car physics, so they are
omitted; the camera-angle smoothing (lines 229-230) is kept.  Returns the
new controls state and the car state after the setter calls and the final
physics update. -/
def update (M : MathFns) (maxSteeringAngle : ℚ) (keys : InputKeys)
    (isStartupPlaying : Bool) (cs : ControlsState) (car : CarState)
    (delta : ℚ) : ControlsState × CarState :=
  -- Smooth camera angles to reduce jank
  let cameraAngle := dampQ M cs.cameraAngle cs.cameraAngleTarget cameraSmoothRate delta
  let cameraPitch := dampQ M cs.cameraPitch cs.cameraPitchTarget cameraSmoothRate delta
  -- Throttle with smoother input response
  let targetThrottle : ℚ :=
    if isStartupPlaying = true then 0
    else if keys.forward = true then 1
    else if keys.backward = true then -(3 / 5)
    else 0
  -- Brake input (separate from throttle)
  let targetBrake : ℚ := if keys.brake = true then 1 else 0
  -- Smooth throttle and brake
  let throttleRate := if cs.throttleInput < targetThrottle then throttleRiseRate else throttleFallRate
  let throttleInput := dampQ M cs.throttleInput targetThrottle throttleRate delta
  let brakeRate := if cs.brakeInput < targetBrake then brakeRiseRate else brakeFallRate
  let brakeInput := dampQ M cs.brakeInput targetBrake brakeRate delta
  -- Steering input (speed-dependent)
  let rawSteer : ℚ := (if keys.left = true then 1 else 0) + (if keys.right = true then -1 else 0)
  let currentSpeed := |car.speed|
  let speedFactor := clampQ (1 - currentSpeed / 35) (7 / 20) 1
  let targetSteer := rawSteer * speedFactor
  let steerRateUsed := if |cs.steeringInput| < |targetSteer| then steerRate else steerReturnRate
  let steeringInput := dampQ M cs.steeringInput targetSteer steerRateUsed delta
  let car1 := Car.setThrottle car throttleInput
  let car2 := Car.setBrake car1 brakeInput
  let car3 := Car.setSteering maxSteeringAngle car2 (steeringInput * maxSteeringAngle)
  -- Handbrake - enables drift
  let car4 := Car.setHandbrake car3 keys.handbrake
  -- Boost
  let car5 := Car.setBoost car4 (keys.boost && decide (0 < car4.boostAmount))
  -- Update car physics
  let car6 := Car.update M car5 delta
  ({ cs with
      throttleInput := throttleInput
      brakeInput := brakeInput
      steeringInput := steeringInput
      cameraAngle := cameraAngle
      cameraPitch := cameraPitch },
   car6)

end CarControls

namespace DrivingSimulator

/-- The body of the 5000 ms position-save timer installed by
`DrivingSimulator.startPositionSaving` (src/core/DrivingSimulator.ts lines
135-152): given whether a car exists and the map is loaded, the car's
current position and the recorded last saved position, it returns whether
`CityManager.savePosition` is invoked on this firing and the new recorded
last saved position. -/
def positionSaveTick (carExists isLoaded : Bool) (pos : Vec3)
    (lastSavedPosition : Option Vec3) : Bool × Option Vec3 :=
  if carExists = true ∧ isLoaded = true then
    -- Only save if position changed significantly
    match lastSavedPosition with
    | none => (true, some pos)
    | some last =>
        if 1 < |pos.x - last.x| ∨ 1 < |pos.z - last.z| then
          (true, some pos)
        else
          (false, some last)
  else
    (false, lastSavedPosition)

/-- The vehicle part of `DrivingSimulator.init` (src/core/DrivingSimulator.ts
lines 81-104): the previous car and controls are disposed and set to `null`,
a fresh `Car` is constructed and moved to the scene's start position.  The
previous session's car state is discarded, which the `prevCar` argument makes
explicit. -/
def initVehicle (_prevCar : Option CarState) (startPosition : Vec3) : CarState :=
  Car.setPosition Car.init startPosition.x startPosition.y startPosition.z

/-- Source `DrivingSimulator.getCarHeading` (src/core/DrivingSimulator.ts lines
253-263).  `carDirAngle` abstracts `Math.atan2(direction.x, direction.z)`
evaluated on the car's direction vector (`none` when `this.car` is null);
`piQ` stands for the exact value of `Math.PI`. -/
def getCarHeading (piQ : ℚ) (carDirAngle : Option ℚ) : ℚ :=
  match carDirAngle with
  | none => 0
  | some a =>
      let angle := a * (180 / piQ)
      -- Normalize to 0-360 range (make negative angles positive)
      if angle < 0 then angle + 360 else angle

end DrivingSimulator

namespace SceneManager

/-- Earth radius in meters used by the coordinate conversions. -/
def earthRadius : ℚ := 6371000

/-- Source `SceneManager.latLonToLocal(lat, lon)` (src/core/scene/SceneManager.ts
lines 166-175), with `Math.PI` passed as `piQ` and `Math.cos` taken from the
function pack.  Returns `(x, z)`. -/
def latLonToLocal (M : MathFns) (piQ centerLat centerLon lat lon : ℚ) : ℚ × ℚ :=
  let dLat := (lat - centerLat) * piQ / 180
  let dLon := (lon - centerLon) * piQ / 180
  (dLon * earthRadius * M.cosF (centerLat * piQ / 180), -(dLat * earthRadius))

/-- Source `SceneManager.localToLatLon(x, z)` (src/core/scene/SceneManager.ts lines
180-190).  Returns `(lat, lon)`. -/
def localToLatLon (M : MathFns) (piQ centerLat centerLon x z : ℚ) : ℚ × ℚ :=
  let dLat := -z / earthRadius
  let dLon := x / (earthRadius * M.cosF (centerLat * piQ / 180))
  (centerLat + dLat * 180 / piQ, centerLon + dLon * 180 / piQ)

end SceneManager

/-! ## Extended-value model of JavaScript numbers

`JsVal` is `ℚ` together with `NaN`, `+Infinity` and `-Infinity`, with the
JavaScript propagation rules for the operators used by `Car.update`.
(Overflow of the finite range and signed zero are not modelled; neither is
reachable in the formulas below from the values the claims are about.) -/

/-- A JavaScript number: a finite (exact) value, `NaN`, or a signed infinity. -/
inductive JsVal where
  | num (q : ℚ)
  | nan
  | posInf
  | negInf
deriving DecidableEq

namespace JsVal

/-- Source `Number.isFinite`. -/
def isFinite : JsVal → Bool
  | num _ => true
  | _ => false

/-- JavaScript unary minus. -/
def neg : JsVal → JsVal
  | num q => num (-q)
  | nan => nan
  | posInf => negInf
  | negInf => posInf

/-- JavaScript `+`. -/
def add : JsVal → JsVal → JsVal
  | nan, _ => nan
  | _, nan => nan
  | num a, num b => num (a + b)
  | num _, posInf => posInf
  | num _, negInf => negInf
  | posInf, num _ => posInf
  | negInf, num _ => negInf
  | posInf, posInf => posInf
  | negInf, negInf => negInf
  | posInf, negInf => nan
  | negInf, posInf => nan

/-- JavaScript `-`. -/
def sub (a b : JsVal) : JsVal := add a (neg b)

/-- JavaScript `*`. -/
def mul : JsVal → JsVal → JsVal
  | nan, _ => nan
  | _, nan => nan
  | num a, num b => num (a * b)
  | num a, posInf => if a = 0 then nan else if 0 < a then posInf else negInf
  | num a, negInf => if a = 0 then nan else if 0 < a then negInf else posInf
  | posInf, num b => if b = 0 then nan else if 0 < b then posInf else negInf
  | negInf, num b => if b = 0 then nan else if 0 < b then negInf else posInf
  | posInf, posInf => posInf
  | posInf, negInf => negInf
  | negInf, posInf => negInf
  | negInf, negInf => posInf

/-- JavaScript `/` (zero denominators treated as `+0`). -/
def div : JsVal → JsVal → JsVal
  | nan, _ => nan
  | _, nan => nan
  | num a, num b =>
      if b = 0 then (if a = 0 then nan else if 0 < a then posInf else negInf)
      else num (a / b)
  | num _, posInf => num 0
  | num _, negInf => num 0
  | posInf, num b => if 0 ≤ b then posInf else negInf
  | negInf, num b => if 0 ≤ b then negInf else posInf
  | posInf, posInf => nan
  | posInf, negInf => nan
  | negInf, posInf => nan
  | negInf, negInf => nan

/-- JavaScript `<` (false whenever an operand is `NaN`). -/
def ltJ : JsVal → JsVal → Bool
  | nan, _ => false
  | _, nan => false
  | num a, num b => decide (a < b)
  | num _, posInf => true
  | num _, negInf => false
  | posInf, num _ => false
  | negInf, num _ => true
  | posInf, posInf => false
  | negInf, negInf => false
  | negInf, posInf => true
  | posInf, negInf => false

/-- JavaScript `<=` (false whenever an operand is `NaN`). -/
def leJ : JsVal → JsVal → Bool
  | nan, _ => false
  | _, nan => false
  | num a, num b => decide (a ≤ b)
  | num _, posInf => true
  | num _, negInf => false
  | posInf, num _ => false
  | negInf, num _ => true
  | posInf, posInf => true
  | negInf, negInf => true
  | negInf, posInf => true
  | posInf, negInf => false

/-- JavaScript `===` against a finite literal (`NaN === q` is false). -/
def eqNum (a : JsVal) (q : ℚ) : Bool :=
  match a with
  | num b => decide (b = q)
  | _ => false

/-- Source `Math.min` (returns `NaN` if an argument is `NaN`). -/
def minJ (a b : JsVal) : JsVal :=
  match a, b with
  | nan, _ => nan
  | _, nan => nan
  | x, y => if ltJ x y then x else y

/-- Source `Math.max` (returns `NaN` if an argument is `NaN`). -/
def maxJ (a b : JsVal) : JsVal :=
  match a, b with
  | nan, _ => nan
  | _, nan => nan
  | x, y => if ltJ x y then y else x

/-- Source `Math.abs`. -/
def absJ : JsVal → JsVal
  | num q => num |q|
  | nan => nan
  | posInf => posInf
  | negInf => posInf

/-- Source `Math.sign`. -/
def signJ : JsVal → JsVal
  | num q => num (if 0 < q then 1 else if q < 0 then -1 else 0)
  | nan => nan
  | posInf => num 1
  | negInf => num (-1)

/-- Source `THREE.MathUtils.clamp(value, min, max)`. -/
def clampJ (value lo hi : JsVal) : JsVal :=
  maxJ lo (minJ hi value)

/-- A unary `Math` library function (such as `Math.sin`/`Math.cos`/
`Math.tan`) lifted to `JsVal`: every such function maps a finite argument to
a finite result and every non-finite argument to `NaN`. -/
def lift (f : ℚ → ℚ) : JsVal → JsVal
  | num q => num (f q)
  | _ => nan

end JsVal

/-- A 3-component vector of JavaScript numbers. -/
structure JsVec3 where
  x : JsVal
  y : JsVal
  z : JsVal
deriving DecidableEq

/-- A quaternion of JavaScript numbers. -/
structure JsQuat where
  x : JsVal
  y : JsVal
  z : JsVal
  w : JsVal
deriving DecidableEq

namespace JsVec3

/-- Source `THREE.Vector3.add` on JavaScript numbers. -/
def add (a b : JsVec3) : JsVec3 :=
  ⟨JsVal.add a.x b.x, JsVal.add a.y b.y, JsVal.add a.z b.z⟩

/-- Source `THREE.Vector3.multiplyScalar` on JavaScript numbers. -/
def multiplyScalar (a : JsVec3) (s : JsVal) : JsVec3 :=
  ⟨JsVal.mul a.x s, JsVal.mul a.y s, JsVal.mul a.z s⟩

/-- Source `THREE.Vector3.applyQuaternion` on JavaScript numbers. -/
def applyQuaternion (v : JsVec3) (q : JsQuat) : JsVec3 :=
  let tx := JsVal.mul (JsVal.num 2) (JsVal.sub (JsVal.mul q.y v.z) (JsVal.mul q.z v.y))
  let ty := JsVal.mul (JsVal.num 2) (JsVal.sub (JsVal.mul q.z v.x) (JsVal.mul q.x v.z))
  let tz := JsVal.mul (JsVal.num 2) (JsVal.sub (JsVal.mul q.x v.y) (JsVal.mul q.y v.x))
  ⟨JsVal.sub (JsVal.add (JsVal.add v.x (JsVal.mul q.w tx)) (JsVal.mul q.y tz)) (JsVal.mul q.z ty),
   JsVal.sub (JsVal.add (JsVal.add v.y (JsVal.mul q.w ty)) (JsVal.mul q.z tx)) (JsVal.mul q.x tz),
   JsVal.sub (JsVal.add (JsVal.add v.z (JsVal.mul q.w tz)) (JsVal.mul q.x ty)) (JsVal.mul q.y tx)⟩

/-- All three components are finite. -/
def finite (v : JsVec3) : Bool :=
  v.x.isFinite && v.y.isFinite && v.z.isFinite

end JsVec3

namespace JsQuat

/-- Source `THREE.Quaternion.multiply` on JavaScript numbers. -/
def mulQ (a b : JsQuat) : JsQuat :=
  ⟨JsVal.sub (JsVal.add (JsVal.add (JsVal.mul a.x b.w) (JsVal.mul a.w b.x)) (JsVal.mul a.y b.z)) (JsVal.mul a.z b.y),
   JsVal.sub (JsVal.add (JsVal.add (JsVal.mul a.y b.w) (JsVal.mul a.w b.y)) (JsVal.mul a.z b.x)) (JsVal.mul a.x b.z),
   JsVal.sub (JsVal.add (JsVal.add (JsVal.mul a.z b.w) (JsVal.mul a.w b.z)) (JsVal.mul a.x b.y)) (JsVal.mul a.y b.x),
   JsVal.sub (JsVal.sub (JsVal.sub (JsVal.mul a.w b.w) (JsVal.mul a.x b.x)) (JsVal.mul a.y b.y)) (JsVal.mul a.z b.z)⟩

/-- Source `THREE.Quaternion.setFromAxisAngle` on JavaScript numbers. -/
def setFromAxisAngle (sinF cosF : ℚ → ℚ) (axis : JsVec3) (angle : JsVal) : JsQuat :=
  let halfAngle := JsVal.div angle (JsVal.num 2)
  let s := JsVal.lift sinF halfAngle
  ⟨JsVal.mul axis.x s, JsVal.mul axis.y s, JsVal.mul axis.z s, JsVal.lift cosF halfAngle⟩

/-- All four components are finite. -/
def finite (q : JsQuat) : Bool :=
  q.x.isFinite && q.y.isFinite && q.z.isFinite && q.w.isFinite

end JsQuat

/-- The `Car` physics state over JavaScript numbers. -/
structure CarStateJs where
  position : JsVec3
  rotation : JsQuat
  speed : JsVal
  throttleInput : JsVal
  brakeInput : JsVal
  steeringAngle : JsVal
  handbrakeActive : Bool
  isBoosting : Bool
  boostAmount : JsVal
deriving DecidableEq

/-- All numeric fields of the car state are finite. -/
def CarStateJs.finite (s : CarStateJs) : Bool :=
  s.position.finite && s.rotation.finite && s.speed.isFinite &&
    s.throttleInput.isFinite && s.brakeInput.isFinite &&
    s.steeringAngle.isFinite && s.boostAmount.isFinite

namespace CarJs

open JsVal

/-- The boost drain/regen step of `Car.update` (src/core/vehicle/Car.ts lines
369-377) on JavaScript numbers; returns the new `(isBoosting, boostAmount)`. -/
def boostStep (s : CarStateJs) (delta : JsVal) : Bool × JsVal :=
  if s.isBoosting && ltJ (num 0) s.boostAmount then
    let b := maxJ (num 0) (sub s.boostAmount (mul (num 30) delta))
    (if leJ b (num 0) then false else s.isBoosting, b)
  else if (!s.isBoosting) && ltJ s.boostAmount (num 100) then
    (s.isBoosting, minJ (num 100) (add s.boostAmount (mul (num 15) delta)))
  else
    (s.isBoosting, s.boostAmount)

/-- The longitudinal speed step of `Car.update` (src/core/vehicle/Car.ts lines
379-414) on JavaScript numbers: acceleration integration, the two
direction-dependent clamps and the snap-to-zero, given the post-drain boost
flag.  Returns the new `speed`. -/
def speedStep (isBoosting : Bool) (s : CarStateJs) (delta : JsVal) : JsVal :=
  let effectiveMaxSpeed : JsVal := if isBoosting then num 90 else num 160
  let throttle := clampJ s.throttleInput (num (-1)) (num 1)
  let brake := clampJ s.brakeInput (num 0) (num 1)
  let speedSign :=
    if eqNum s.speed 0 then (if leJ (num 0) throttle then num 1 else num (-1))
    else signJ s.speed
  let boostAccelMultiplier : JsVal := if isBoosting then num 2 else num 1
  let engineAccel0 := mul (mul throttle (num 24)) boostAccelMultiplier
  let engineAccel := if ltJ throttle (num 0) then mul engineAccel0 (num (3 / 5)) else engineAccel0
  let drag := mul (mul (num (1 / 50)) s.speed) (absJ s.speed)
  let rolling := mul (num (1 / 5)) s.speed
  let engineBrake := if ltJ (absJ throttle) (num (1 / 20)) then mul (num (3 / 5)) speedSign else num 0
  let brakeDecel := mul (mul brake (num 18)) speedSign
  let netAccel := sub (sub (sub (sub engineAccel drag) rolling) engineBrake) brakeDecel
  let speed1 := add s.speed (mul netAccel delta)
  let speed2 := if leJ (num 0) throttle then minJ speed1 effectiveMaxSpeed else speed1
  let speed3 := if leJ throttle (num 0) then maxJ speed2 (num (-14)) else speed2
  if ltJ (absJ speed3) (num (1 / 20)) && ltJ (absJ throttle) (num (1 / 20)) then num 0 else speed3

/-- The handbrake sideways-slide step of `Car.update` (src/core/vehicle/Car.ts
lines 416-423) on JavaScript numbers, applied to the position with the
already-updated `speed`. -/
def slideStep (s : CarStateJs) (speed delta : JsVal) : JsVec3 :=
  if s.handbrakeActive && ltJ (num 2) (absJ speed) && ltJ (num (1 / 100)) (absJ s.steeringAngle) then
    let sideDirection := JsVec3.applyQuaternion ⟨num 1, num 0, num 0⟩ s.rotation
    let slideAmount := mul (mul (mul s.steeringAngle (absJ speed)) (num (3 / 200))) delta
    s.position.add (sideDirection.multiplyScalar slideAmount)
  else s.position

/-- The bicycle-model steering step of `Car.update` (src/core/vehicle/Car.ts
lines 429-439) on JavaScript numbers, with the already-updated `speed`:
`turnRadius = wheelBase / Math.tan(steeringAngle)` and the heading rotated by
`angularVelocity * delta`. -/
def steeringStep (sinF cosF tanF : ℚ → ℚ) (s : CarStateJs) (speed delta : JsVal) : JsQuat :=
  if ltJ (num (1 / 1000)) (absJ s.steeringAngle) && ltJ (num (1 / 10)) (absJ speed) then
    let steeringMultiplier : JsVal := if s.handbrakeActive then num (3 / 2) else num 1
    let turnRadius := div (num (13 / 5)) (lift tanF s.steeringAngle)
    let angularVelocity := mul (div speed turnRadius) steeringMultiplier
    JsQuat.mulQ s.rotation
      (JsQuat.setFromAxisAngle sinF cosF ⟨num 0, num 1, num 0⟩ (mul angularVelocity delta))
  else s.rotation

/-- Source `Car.update(delta)` (src/core/vehicle/Car.ts lines 368-447) on JavaScript
numbers, assembled from the per-paragraph steps above exactly in source
order: boost, speed, handbrake slide, steering (the movement direction is
taken from the pre-steering rotation, as in the source), position
integration. -/
def update (sinF cosF tanF : ℚ → ℚ) (s : CarStateJs) (delta : JsVal) : CarStateJs :=
  let boostPair := boostStep s delta
  let speed := speedStep boostPair.1 s delta
  let position1 := slideStep s speed delta
  let direction := JsVec3.applyQuaternion ⟨num 0, num 0, num 1⟩ s.rotation
  let rotation := steeringStep sinF cosF tanF s speed delta
  let movement := direction.multiplyScalar (mul speed delta)
  { s with
      position := position1.add movement
      rotation := rotation
      speed := speed
      isBoosting := boostPair.1
      boostAmount := boostPair.2 }

/-- The `Car` constructor state on JavaScript numbers. -/
def init : CarStateJs :=
  { position := ⟨num 0, num (1 / 4), num 0⟩
    rotation := ⟨num 0, num 0, num 0, num 1⟩
    speed := num 0
    throttleInput := num 0
    brakeInput := num 0
    steeringAngle := num 0
    handbrakeActive := false
    isBoosting := false
    boostAmount := num 100 }

end CarJs

/-- The constantly-zero interpretation of a `Math` library function, used in
concrete witnesses and counterexamples. -/
def zeroFn : ℚ → ℚ := fun _ => 0

/-- A car state whose `speed` holds `NaN` (reachable through the unclamped
public setter `Car.setSpeed(NaN)`); all other fields are the constructor
defaults. -/
def carNanSpeed : CarStateJs :=
  { CarJs.init with speed := JsVal.nan }

/-- A car state at the forward cap with a small positive throttle:
`speed = 160 = maxSpeed`, `throttleInput = 0.1`. -/
def carFastLowThrottle : CarState :=
  { Car.init with speed := 160, throttleInput := 1 / 10 }

/-- A car state that is boosting with a partially drained meter. -/
def carBoosting : CarState :=
  { Car.init with isBoosting := true, boostAmount := 10 }

/-- A car state with a half-pressed throttle. -/
def carHalfThrottle : CarState :=
  { Car.init with throttleInput := 1 / 2 }

/-- Key state with only the brake key (space) held. -/
def keysBrakeOnly : InputKeys :=
  { forward := false
    backward := false
    left := false
    right := false
    brake := true
    boost := false
    handbrake := false }

/-- A controls state whose smoothed brake input has already risen to `1`
(the brake key has been held for a while); all other channels neutral,
camera at the constructor defaults. -/
def controlsBrakeHeld : ControlsState :=
  { throttleInput := 0
    brakeInput := 1
    steeringInput := 0
    cameraAngle := 0
    cameraPitch := 7 / 20
    cameraAngleTarget := 0
    cameraPitchTarget := 7 / 20 }

/-! ## Finiteness lemmas for the JavaScript-number model -/

namespace JsVal

@[simp]
theorem isFinite_num (q : ℚ) : (num q).isFinite = true := rfl

@[simp]
theorem isFinite_neg {a : JsVal} (ha : a.isFinite = true) : a.neg.isFinite = true := by
  cases a <;> simp_all [neg, isFinite]

@[simp]
theorem isFinite_add {a b : JsVal} (ha : a.isFinite = true) (hb : b.isFinite = true) :
    (add a b).isFinite = true := by
  cases a <;> cases b <;> simp_all [add, isFinite]

@[simp]
theorem isFinite_sub {a b : JsVal} (ha : a.isFinite = true) (hb : b.isFinite = true) :
    (sub a b).isFinite = true := by
  cases a <;> cases b <;> simp_all [sub, add, neg, isFinite]

@[simp]
theorem isFinite_mul {a b : JsVal} (ha : a.isFinite = true) (hb : b.isFinite = true) :
    (mul a b).isFinite = true := by
  cases a <;> cases b <;> simp_all [mul, isFinite]

@[simp]
theorem isFinite_minJ {a b : JsVal} (ha : a.isFinite = true) (hb : b.isFinite = true) :
    (minJ a b).isFinite = true := by
  cases a with
  | num qa =>
      cases b with
      | num qb =>
          have h : minJ (num qa) (num qb) =
              if ltJ (num qa) (num qb) = true then num qa else num qb := rfl
          rw [h]; split <;> rfl
      | nan => simp [isFinite] at hb
      | posInf => simp [isFinite] at hb
      | negInf => simp [isFinite] at hb
  | nan => simp [isFinite] at ha
  | posInf => simp [isFinite] at ha
  | negInf => simp [isFinite] at ha

@[simp]
theorem isFinite_maxJ {a b : JsVal} (ha : a.isFinite = true) (hb : b.isFinite = true) :
    (maxJ a b).isFinite = true := by
  cases a with
  | num qa =>
      cases b with
      | num qb =>
          have h : maxJ (num qa) (num qb) =
              if ltJ (num qa) (num qb) = true then num qb else num qa := rfl
          rw [h]; split <;> rfl
      | nan => simp [isFinite] at hb
      | posInf => simp [isFinite] at hb
      | negInf => simp [isFinite] at hb
  | nan => simp [isFinite] at ha
  | posInf => simp [isFinite] at ha
  | negInf => simp [isFinite] at ha

@[simp]
theorem isFinite_absJ {a : JsVal} (ha : a.isFinite = true) : a.absJ.isFinite = true := by
  cases a <;> simp_all [absJ, isFinite]

@[simp]
theorem isFinite_signJ {a : JsVal} (ha : a.isFinite = true) : a.signJ.isFinite = true := by
  cases a <;> simp_all [signJ, isFinite]

@[simp]
theorem isFinite_clampJ {v lo hi : JsVal} (hv : v.isFinite = true)
    (hlo : lo.isFinite = true) (hhi : hi.isFinite = true) :
    (clampJ v lo hi).isFinite = true := by
  exact isFinite_maxJ hlo (isFinite_minJ hhi hv)

@[simp]
theorem isFinite_lift (f : ℚ → ℚ) {a : JsVal} (ha : a.isFinite = true) :
    (lift f a).isFinite = true := by
  cases a <;> simp_all [lift, isFinite]

@[simp]
theorem isFinite_ite (c : Prop) [Decidable c] {x y : JsVal}
    (hx : x.isFinite = true) (hy : y.isFinite = true) :
    (if c then x else y).isFinite = true := by
  split <;> assumption

/-- The turn-radius pattern of the steering block: `x / (c / t)` is finite
whenever `x` is finite and the numerator constant `c` is nonzero, whatever
the (finite) divisor `t` — a zero `t` sends the inner quotient to infinity
and the outer quotient back to zero. -/
theorem isFinite_div_div {x : JsVal} (hx : x.isFinite = true) {c t : ℚ} (hc : c ≠ 0) :
    (div x (div (num c) (num t))).isFinite = true := by
  cases x with
  | num a =>
      by_cases ht : t = 0
      · subst ht
        by_cases hcpos : 0 < c <;> simp [div, hc, hcpos, isFinite]
      · have hct : c / t ≠ 0 := div_ne_zero hc ht
        simp [div, ht, hct, isFinite]
  | nan => simp [isFinite] at hx
  | posInf => simp [isFinite] at hx
  | negInf => simp [isFinite] at hx

end JsVal

@[simp]
theorem JsVec3.finite_add {a b : JsVec3} (ha : a.finite = true) (hb : b.finite = true) :
    (a.add b).finite = true := by
  cases a; cases b
  simp only [JsVec3.finite, Bool.and_eq_true] at ha hb ⊢
  obtain ⟨⟨hax, hay⟩, haz⟩ := ha
  obtain ⟨⟨hbx, hby⟩, hbz⟩ := hb
  exact ⟨⟨JsVal.isFinite_add hax hbx, JsVal.isFinite_add hay hby⟩, JsVal.isFinite_add haz hbz⟩

@[simp]
theorem JsVec3.finite_multiplyScalar {a : JsVec3} {s : JsVal}
    (ha : a.finite = true) (hs : s.isFinite = true) :
    (a.multiplyScalar s).finite = true := by
  cases a
  simp only [JsVec3.finite, Bool.and_eq_true] at ha ⊢
  obtain ⟨⟨hax, hay⟩, haz⟩ := ha
  exact ⟨⟨JsVal.isFinite_mul hax hs, JsVal.isFinite_mul hay hs⟩, JsVal.isFinite_mul haz hs⟩

@[simp]
theorem JsVec3.finite_applyQuaternion {v : JsVec3} {q : JsQuat}
    (hv : v.finite = true) (hq : q.finite = true) :
    (v.applyQuaternion q).finite = true := by
  cases v; cases q
  simp only [JsVec3.finite, JsQuat.finite, Bool.and_eq_true] at hv hq ⊢
  obtain ⟨⟨hvx, hvy⟩, hvz⟩ := hv
  obtain ⟨⟨⟨hqx, hqy⟩, hqz⟩, hqw⟩ := hq
  refine ⟨⟨?_, ?_⟩, ?_⟩ <;>
    · repeat'
        first
          | assumption
          | rfl
          | apply JsVal.isFinite_sub
          | apply JsVal.isFinite_add
          | apply JsVal.isFinite_mul

@[simp]
theorem JsQuat.finite_mulQ {a b : JsQuat} (ha : a.finite = true) (hb : b.finite = true) :
    (JsQuat.mulQ a b).finite = true := by
  cases a; cases b
  simp only [JsQuat.finite, Bool.and_eq_true] at ha hb ⊢
  obtain ⟨⟨⟨hax, hay⟩, haz⟩, haw⟩ := ha
  obtain ⟨⟨⟨hbx, hby⟩, hbz⟩, hbw⟩ := hb
  refine ⟨⟨⟨?_, ?_⟩, ?_⟩, ?_⟩ <;>
    · repeat'
        first
          | assumption
          | rfl
          | apply JsVal.isFinite_sub
          | apply JsVal.isFinite_add
          | apply JsVal.isFinite_mul

@[simp]
theorem JsQuat.finite_setFromAxisAngle (sinF cosF : ℚ → ℚ) {axis : JsVec3} {angle : JsVal}
    (haxis : axis.finite = true) (hangle : angle.isFinite = true) :
    (JsQuat.setFromAxisAngle sinF cosF axis angle).finite = true := by
  cases axis
  simp only [JsVec3.finite, Bool.and_eq_true] at haxis
  obtain ⟨⟨hax, hay⟩, haz⟩ := haxis
  have hhalf : (JsVal.div angle (JsVal.num 2)).isFinite = true := by
    cases angle <;> simp_all [JsVal.div, JsVal.isFinite]
  simp [JsQuat.setFromAxisAngle, JsQuat.finite, JsVal.isFinite_mul, JsVal.isFinite_lift,
    hax, hay, haz, hhalf]

theorem CarJs.boostStep_finite {s : CarStateJs} {delta : JsVal}
    (hb : s.boostAmount.isFinite = true) (hd : delta.isFinite = true) :
    (CarJs.boostStep s delta).2.isFinite = true := by
  unfold CarJs.boostStep
  split
  · exact JsVal.isFinite_maxJ rfl (JsVal.isFinite_sub hb (JsVal.isFinite_mul rfl hd))
  · split
    · exact JsVal.isFinite_minJ rfl (JsVal.isFinite_add hb (JsVal.isFinite_mul rfl hd))
    · exact hb

theorem CarJs.speedStep_finite (isBoosting : Bool) {s : CarStateJs} {delta : JsVal}
    (hsp : s.speed.isFinite = true) (hth : s.throttleInput.isFinite = true)
    (hbr : s.brakeInput.isFinite = true) (hd : delta.isFinite = true) :
    (CarJs.speedStep isBoosting s delta).isFinite = true := by
  unfold CarJs.speedStep
  repeat'
    first
      | assumption
      | rfl
      | apply JsVal.isFinite_ite
      | apply JsVal.isFinite_minJ
      | apply JsVal.isFinite_maxJ
      | apply JsVal.isFinite_clampJ
      | apply JsVal.isFinite_signJ
      | apply JsVal.isFinite_absJ
      | apply JsVal.isFinite_sub
      | apply JsVal.isFinite_add
      | apply JsVal.isFinite_mul

theorem CarJs.slideStep_finite {s : CarStateJs} {speed delta : JsVal}
    (hpos : s.position.finite = true) (hrot : s.rotation.finite = true)
    (hst : s.steeringAngle.isFinite = true) (hsp : speed.isFinite = true)
    (hd : delta.isFinite = true) :
    (CarJs.slideStep s speed delta).finite = true := by
  unfold CarJs.slideStep
  split
  · refine JsVec3.finite_add hpos (JsVec3.finite_multiplyScalar ?_ ?_)
    · exact JsVec3.finite_applyQuaternion rfl hrot
    · repeat'
        first
          | assumption
          | rfl
          | apply JsVal.isFinite_absJ
          | apply JsVal.isFinite_mul
  · exact hpos

theorem CarJs.steeringStep_finite (sinF cosF tanF : ℚ → ℚ) {s : CarStateJs}
    {speed delta : JsVal} (hrot : s.rotation.finite = true)
    (hst : s.steeringAngle.isFinite = true) (hsp : speed.isFinite = true)
    (hd : delta.isFinite = true) :
    (CarJs.steeringStep sinF cosF tanF s speed delta).finite = true := by
  unfold CarJs.steeringStep
  split
  · cases hθ : s.steeringAngle with
    | num θ =>
        refine JsQuat.finite_mulQ hrot (JsQuat.finite_setFromAxisAngle _ _ rfl ?_)
        refine JsVal.isFinite_mul (JsVal.isFinite_mul ?_ ?_) hd
        · have hl : JsVal.lift tanF (JsVal.num θ) = JsVal.num (tanF θ) := rfl
          rw [hl]
          exact JsVal.isFinite_div_div hsp (by norm_num)
        · split <;> rfl
    | nan => rw [hθ] at hst; simp [JsVal.isFinite] at hst
    | posInf => rw [hθ] at hst; simp [JsVal.isFinite] at hst
    | negInf => rw [hθ] at hst; simp [JsVal.isFinite] at hst
  · exact hrot

/-! ## Helper lemmas for the rational model -/

theorem Car.update_speed (M : MathFns) (s : CarState) (delta : ℚ) :
    (Car.update M s delta).speed = Car.speedStep (Car.boostStep s delta).1 s delta := rfl

theorem Car.update_throttleInput (M : MathFns) (s : CarState) (delta : ℚ) :
    (Car.update M s delta).throttleInput = s.throttleInput := rfl

theorem Car.update_brakeInput (M : MathFns) (s : CarState) (delta : ℚ) :
    (Car.update M s delta).brakeInput = s.brakeInput := rfl

theorem Car.update_isBoosting (M : MathFns) (s : CarState) (delta : ℚ) :
    (Car.update M s delta).isBoosting = (Car.boostStep s delta).1 := rfl

theorem Car.update_boostAmount (M : MathFns) (s : CarState) (delta : ℚ) :
    (Car.update M s delta).boostAmount = (Car.boostStep s delta).2 := rfl

/-- The clamp/snap tail maps a standstill tick (`throttle = 0`, integrated
speed in `(-1/20, 0]`) back to exactly `0`. -/
theorem Car.clampSpeed_standstill (E x : ℚ) (hE : 0 ≤ E) (hx0 : -(1 / 20) < x)
    (hx1 : x ≤ 0) : Car.clampSpeed E 0 x = 0 := by
  have h2 : min x E = x := min_eq_left (by linarith)
  have h3 : max x (-Car.maxReverseSpeed) = x := by
    apply max_eq_left
    unfold Car.maxReverseSpeed
    linarith
  simp only [Car.clampSpeed, if_pos (le_refl (0 : ℚ)), h2, h3]
  rw [if_pos]
  constructor
  · rw [abs_of_nonpos hx1]
    linarith
  · norm_num

/-- The clamp/snap tail never exceeds a nonnegative `effectiveMaxSpeed` when
the throttle is nonnegative. -/
theorem Car.clampSpeed_le (E throttle x : ℚ) (hE : 0 ≤ E) (h : 0 ≤ throttle) :
    Car.clampSpeed E throttle x ≤ E := by
  simp only [Car.clampSpeed, if_pos h]
  split_ifs <;>
    first
      | exact hE
      | exact min_le_right x E
      | · apply max_le (min_le_right x E)
          unfold Car.maxReverseSpeed
          linarith

/-- The clamp/snap tail never drops below `-maxReverseSpeed` when the
throttle is nonpositive. -/
theorem Car.clampSpeed_ge (E throttle x : ℚ) (h : throttle ≤ 0) :
    -Car.maxReverseSpeed ≤ Car.clampSpeed E throttle x := by
  simp only [Car.clampSpeed, if_pos h]
  split_ifs <;>
    first
      | exact le_max_right _ _
      | · unfold Car.maxReverseSpeed
          norm_num

/-- A standstill tick with zero throttle and brake inputs and a frame delta
below `1/12` s leaves the speed at exactly `0` (the engine-braking drift
`(3/5) * delta` stays below the `1/20` snap threshold). -/
theorem Car.speedStep_standstill (b : Bool) (s : CarState) (delta : ℚ)
    (h0 : 0 ≤ delta) (h12 : delta < 1 / 12) (hsp : s.speed = 0)
    (hth : s.throttleInput = 0) (hbr : s.brakeInput = 0) :
    Car.speedStep b s delta = 0 := by
  have hth0 : clampQ (0 : ℚ) (-1) 1 = 0 := by decide
  have hbr0 : clampQ (0 : ℚ) 0 1 = 0 := by decide
  unfold Car.speedStep
  rw [hsp, hth, hbr, hth0, hbr0]
  norm_num [Car.maxAcceleration, Car.dragCoefficient, Car.rollingResistance,
    Car.engineBraking, Car.maxBrakeDecel]
  apply Car.clampSpeed_standstill
  · split <;> norm_num [Car.boostMaxSpeed, Car.maxSpeed]
  · linarith
  · linarith

/-- Source `boostAmount` stays inside `[0, 100]` across the boost drain/regen step
whenever it starts there and the delta is nonnegative. -/
theorem Car.boostStep_bounds (s : CarState) (delta : ℚ) (h0 : 0 ≤ delta)
    (hlo : 0 ≤ s.boostAmount) (hhi : s.boostAmount ≤ 100) :
    0 ≤ (Car.boostStep s delta).2 ∧ (Car.boostStep s delta).2 ≤ 100 := by
  unfold Car.boostStep
  have hdrain : 0 ≤ Car.boostDrainRate * delta := by
    unfold Car.boostDrainRate
    positivity
  have hregen : 0 ≤ Car.boostRegenRate * delta := by
    unfold Car.boostRegenRate
    positivity
  split_ifs
  · exact ⟨le_max_left _ _, max_le (by norm_num) (by linarith)⟩
  · exact ⟨le_min (by norm_num) (by linarith), min_le_left _ _⟩
  · exact ⟨hlo, hhi⟩

/-- When the step starts boosting with a positive meter, the resulting flag
is true exactly when the resulting meter is still positive (the
force-disable is edge-triggered inside the same evaluation). -/
theorem Car.boostStep_edge (s : CarState) (delta : ℚ) (hb : s.isBoosting = true)
    (hpos : 0 < s.boostAmount) :
    ((Car.boostStep s delta).1 = true ↔ 0 < (Car.boostStep s delta).2) := by
  have hm : 0 ≤ max 0 (s.boostAmount - Car.boostDrainRate * delta) := le_max_left _ _
  simp only [Car.boostStep, if_pos (And.intro hb hpos)]
  by_cases h : max 0 (s.boostAmount - Car.boostDrainRate * delta) ≤ 0
  · rw [if_pos h]
    constructor
    · intro hfalse
      exact absurd hfalse (by simp)
    · intro hgt
      exact absurd (lt_of_lt_of_le hgt h) (lt_irrefl 0)
  · rw [if_neg h]
    constructor
    · intro _
      exact lt_of_not_le h
    · intro _
      exact hb

/-- The two throttle-sign clamps of `clampQ x (-1) 1` preserve
nonnegativity. -/
theorem clampQ_unit_nonneg {x : ℚ} (h : 0 ≤ x) : 0 ≤ clampQ x (-1) 1 :=
  le_max_of_le_right (le_min (by norm_num) h)

/-- The two throttle-sign clamps of `clampQ x (-1) 1` preserve
nonpositivity. -/
theorem clampQ_unit_nonpos {x : ℚ} (h : x ≤ 0) : clampQ x (-1) 1 ≤ 0 :=
  max_le (by norm_num) (le_trans (min_le_right 1 x) h)

/-- Source `Car.setBoost` never touches the brake input. -/
theorem Car.setBoost_brakeInput (s : CarState) (active : Bool) :
    (Car.setBoost s active).brakeInput = s.brakeInput := by
  unfold Car.setBoost
  split <;> rfl

/-! ## Claim C1 -/

/-- C1: counterexample.  `Car.update` contains no non-finite substitution: a
`NaN` speed in the incoming state (injectable through the unclamped public
setter `Car.setSpeed(NaN)`) propagates through the physics formulas and is
written back into `speed` (and into the position), so the state after update
does not contain only finite values. -/
theorem C1_counterexample :
    (CarJs.update zeroFn zeroFn zeroFn carNanSpeed (JsVal.num 1)).speed = JsVal.nan ∧
      (CarJs.update zeroFn zeroFn zeroFn carNanSpeed (JsVal.num 1)).finite = false := by
  constructor <;>
    norm_num [CarJs.update, CarJs.boostStep, CarJs.speedStep, CarJs.slideStep,
      CarJs.steeringStep, CarJs.init, carNanSpeed, JsVal.add, JsVal.sub, JsVal.mul,
      JsVal.neg, JsVal.minJ, JsVal.maxJ, JsVal.ltJ, JsVal.leJ, JsVal.eqNum, JsVal.signJ,
      JsVal.absJ, JsVal.clampJ, JsVal.lift, JsVec3.applyQuaternion, JsVec3.add,
      JsVec3.multiplyScalar, JsQuat.mulQ, JsQuat.setFromAxisAngle, CarStateJs.finite,
      JsVec3.finite, JsQuat.finite, JsVal.isFinite, zeroFn]

/-- C1 (amended): `Car.update` performs no explicit NaN/Infinity
substitution, but from a state whose numeric fields are all finite and a
finite delta, every value it writes into `speed`, `rotation` and `position`
is finite, for every interpretation of `Math.sin`/`Math.cos`/`Math.tan`: the
only division, the bicycle-model turn radius, is epsilon-guarded and even a
zero tangent only sends the turn radius to infinity, which the following
division maps back to a zero angular velocity. -/
theorem C1_update_finite_of_finite (sinF cosF tanF : ℚ → ℚ) (s : CarStateJs)
    (delta : JsVal) (hs : s.finite = true) (hd : delta.isFinite = true) :
    (CarJs.update sinF cosF tanF s delta).finite = true := by
  simp only [CarStateJs.finite, Bool.and_eq_true] at hs
  obtain ⟨⟨⟨⟨⟨⟨hpos, hrot⟩, hsp⟩, hth⟩, hbr⟩, hst⟩, hba⟩ := hs
  have hspeed := CarJs.speedStep_finite (CarJs.boostStep s delta).1 hsp hth hbr hd
  unfold CarJs.update
  simp only [CarStateJs.finite, Bool.and_eq_true]
  refine ⟨⟨⟨⟨⟨⟨?_, ?_⟩, ?_⟩, ?_⟩, ?_⟩, ?_⟩, ?_⟩
  · exact JsVec3.finite_add (CarJs.slideStep_finite hpos hrot hst hspeed hd)
      (JsVec3.finite_multiplyScalar (JsVec3.finite_applyQuaternion rfl hrot)
        (JsVal.isFinite_mul hspeed hd))
  · exact CarJs.steeringStep_finite sinF cosF tanF hrot hst hspeed hd
  · exact hspeed
  · exact hth
  · exact hbr
  · exact hst
  · exact CarJs.boostStep_finite hba hd

/-- C1: witness for the amended theorem at the constructor state and a
one-second delta. -/
theorem C1_witness :
    (CarJs.update zeroFn zeroFn zeroFn CarJs.init (JsVal.num 1)).finite = true :=
  C1_update_finite_of_finite zeroFn zeroFn zeroFn CarJs.init (JsVal.num 1) rfl rfl

/-! ## Claim C2 -/

/-- C2: counterexample.  From an exact standstill with zero throttle and
brake inputs, a single `Car.update` with `delta = 1` (≥ 0) leaves the speed
at `-(3/5)`, not `0`: the engine-braking term uses `speedSign = 1` at rest
(`speed === 0` with `throttle ≥ 0`), subtracts `0.6 * delta`, and the
snap-to-zero threshold `0.05` does not catch it. -/
theorem C2_counterexample :
    Car.init.speed = 0 ∧ Car.init.throttleInput = 0 ∧ Car.init.brakeInput = 0 ∧
      (0 : ℚ) ≤ 1 ∧ (Car.update mathFnsW Car.init 1).speed = -(3 / 5) := by
  refine ⟨rfl, rfl, rfl, by norm_num, ?_⟩
  norm_num [Car.update, Car.boostStep, Car.speedStep, Car.clampSpeed, Car.init, clampQ,
    signQ, Car.maxSpeed, Car.maxAcceleration, Car.dragCoefficient, Car.rollingResistance,
    Car.engineBraking, Car.maxBrakeDecel, Car.maxReverseSpeed, Car.boostMaxSpeed,
    Car.boostMultiplier, Car.boostDrainRate, Car.boostRegenRate, min_def, max_def,
    abs_eq_max_neg]

/-- C2 (amended): with zero throttle input, zero brake input and zero initial
speed, the speed stays exactly `0` across any number of consecutive
`Car.update` calls whose deltas all lie in `[0, 1/12)` — the range in which
the engine-braking drift `(3/5) * delta` stays below the `0.05`
snap-to-zero threshold (frame deltas are ≈ 1/60 s in practice). -/
theorem C2_standstill (M : MathFns) (s : CarState) (deltas : List ℚ)
    (hd : ∀ d ∈ deltas, 0 ≤ d ∧ d < 1 / 12) (hsp : s.speed = 0)
    (hth : s.throttleInput = 0) (hbr : s.brakeInput = 0) :
    (Car.updateSeq M s deltas).speed = 0 := by
  induction deltas generalizing s with
  | nil => simpa [Car.updateSeq] using hsp
  | cons d rest ih =>
      have hd0 := hd d (List.mem_cons_self d rest)
      show (Car.updateSeq M (Car.update M s d) rest).speed = 0
      apply ih
      · intro e he
        exact hd e (List.mem_cons_of_mem d he)
      · rw [Car.update_speed]
        exact Car.speedStep_standstill _ s d hd0.1 hd0.2 hsp hth hbr
      · rw [Car.update_throttleInput]
        exact hth
      · rw [Car.update_brakeInput]
        exact hbr

/-- C2: witness for the amended theorem over two frame deltas. -/
theorem C2_witness : (Car.updateSeq mathFnsW Car.init [1 / 60, 1 / 30]).speed = 0 :=
  C2_standstill mathFnsW Car.init [1 / 60, 1 / 30]
    (by
      intro d hdm
      rcases List.mem_cons.mp hdm with rfl | hdm
      · constructor <;> norm_num
      · rcases List.mem_cons.mp hdm with rfl | hdm
        · constructor <;> norm_num
        · simp at hdm)
    rfl rfl rfl

/-! ## Claim C3 -/

/-- C3: counterexample.  Starting inside the claimed invariant
(`|speed| = 160 ≤ maxSpeed`), one `Car.update` with `throttle = 0.1` and
`delta = 10 ≥ 0` integrates the huge drag at 160 m/s into a speed of
`-5256`: the upper clamp (`Math.min`) applies because `throttle ≥ 0`, but
the lower clamp (`Math.max` against `-maxReverseSpeed`) is skipped because
`throttle > 0`, so `|speed| ≤ effectiveMaxSpeed` fails after the update. -/
theorem C3_counterexample :
    |carFastLowThrottle.speed| ≤ Car.maxSpeed ∧ (0 : ℚ) ≤ 10 ∧
      ¬(|(Car.update mathFnsW carFastLowThrottle 10).speed| ≤
          (if (Car.update mathFnsW carFastLowThrottle 10).isBoosting = true then
            Car.boostMaxSpeed else Car.maxSpeed)) := by
  refine ⟨?_, by norm_num, ?_⟩
  · norm_num [carFastLowThrottle, Car.init, Car.maxSpeed]
  · norm_num [Car.update, Car.boostStep, Car.speedStep, Car.clampSpeed, Car.init,
      carFastLowThrottle, clampQ, signQ, Car.maxSpeed, Car.maxAcceleration,
      Car.dragCoefficient, Car.rollingResistance, Car.engineBraking, Car.maxBrakeDecel,
      Car.maxReverseSpeed, Car.boostMaxSpeed, Car.boostMultiplier, Car.boostDrainRate,
      Car.boostRegenRate, min_def, max_def, abs_eq_max_neg]

/-- C3 (amended): the clamp after one `Car.update` is directional, driven by
the throttle sign: a nonnegative throttle input bounds the new speed above
by `effectiveMaxSpeed` (`boostMaxSpeed` when the post-drain boost flag is
set, `maxSpeed` otherwise), and a nonpositive throttle input bounds it below
by `-maxReverseSpeed` — for every delta and every initial speed. -/
theorem C3_throttle_directional_clamp (M : MathFns) (s : CarState) (delta : ℚ) :
    (0 ≤ s.throttleInput →
      (Car.update M s delta).speed ≤
        (if (Car.update M s delta).isBoosting = true then Car.boostMaxSpeed
          else Car.maxSpeed)) ∧
    (s.throttleInput ≤ 0 →
      -Car.maxReverseSpeed ≤ (Car.update M s delta).speed) := by
  constructor
  · intro h
    rw [Car.update_speed, Car.update_isBoosting]
    simp only [Car.speedStep]
    apply Car.clampSpeed_le
    · split <;> norm_num [Car.boostMaxSpeed, Car.maxSpeed]
    · exact clampQ_unit_nonneg h
  · intro h
    rw [Car.update_speed]
    simp only [Car.speedStep]
    exact Car.clampSpeed_ge _ _ _ (clampQ_unit_nonpos h)

/-- C3: witness for the amended theorem at a half-throttle state. -/
theorem C3_witness :
    (Car.update mathFnsW carHalfThrottle (1 / 60)).speed ≤
      (if (Car.update mathFnsW carHalfThrottle (1 / 60)).isBoosting = true then
        Car.boostMaxSpeed else Car.maxSpeed) :=
  (C3_throttle_directional_clamp mathFnsW carHalfThrottle (1 / 60)).1
    (by norm_num [carHalfThrottle, Car.init])

/-! ## Claim C4 -/

/-- C4: `boostAmount` stays in `[0, 100]` across `Car.update` with any
nonnegative delta (including arbitrarily large ones), and is untouched by
`Car.setBoost` and `Car.resetPhysics`; moreover, when an update starts
boosting with a positive meter, the resulting boost flag is true exactly
when the resulting meter is still positive — so the instant the meter
reaches `0` inside an update, `isBoosting` is forced off in that same
evaluation. -/
theorem C4_boost_meter_invariant (M : MathFns) (s : CarState) (delta : ℚ)
    (active : Bool) (h0 : 0 ≤ delta) (hlo : 0 ≤ s.boostAmount)
    (hhi : s.boostAmount ≤ 100) :
    (0 ≤ (Car.update M s delta).boostAmount ∧
      (Car.update M s delta).boostAmount ≤ 100) ∧
    (Car.setBoost s active).boostAmount = s.boostAmount ∧
    (Car.resetPhysics s).boostAmount = s.boostAmount ∧
    (s.isBoosting = true → 0 < s.boostAmount →
      ((Car.update M s delta).isBoosting = true ↔
        0 < (Car.update M s delta).boostAmount)) := by
  refine ⟨?_, ?_, rfl, ?_⟩
  · simp only [Car.update_boostAmount]
    exact Car.boostStep_bounds s delta h0 hlo hhi
  · unfold Car.setBoost
    split <;> rfl
  · intro hb hpos
    simp only [Car.update_isBoosting, Car.update_boostAmount]
    exact Car.boostStep_edge s delta hb hpos

/-- C4: witness at a boosting state with a partially drained meter and a
one-second delta. -/
theorem C4_witness :
    (0 ≤ (Car.update mathFnsW carBoosting 1).boostAmount ∧
      (Car.update mathFnsW carBoosting 1).boostAmount ≤ 100) ∧
    (Car.setBoost carBoosting true).boostAmount = carBoosting.boostAmount ∧
    (Car.resetPhysics carBoosting).boostAmount = carBoosting.boostAmount ∧
    (carBoosting.isBoosting = true → 0 < carBoosting.boostAmount →
      ((Car.update mathFnsW carBoosting 1).isBoosting = true ↔
        0 < (Car.update mathFnsW carBoosting 1).boostAmount)) :=
  C4_boost_meter_invariant mathFnsW carBoosting 1 true (by norm_num)
    (by norm_num [carBoosting, Car.init]) (by norm_num [carBoosting, Car.init])

/-! ## Claim C5 -/

/-- C5: counterexample.  With the startup cue reported as still playing and
the brake key held, one `CarControls.update` tick passes a brake intent of
`1` (not `0`) to the car: the startup gate only zeroes the throttle target
(`targetThrottle`), while `targetBrake = this.keys.brake ? 1 : 0` is
computed from the raw key state regardless of the startup cue, so the brake
is not suppressed at all. -/
theorem C5_counterexample :
    (CarControls.update mathFnsW 1 keysBrakeOnly true controlsBrakeHeld Car.init
        (1 / 60)).2.brakeInput = 1 := by
  simp only [CarControls.update, Car.update_brakeInput, Car.setBoost_brakeInput,
    Car.setHandbrake, Car.setSteering, Car.setBrake, Car.setThrottle]
  norm_num [dampQ, lerpQ, mathFnsW, keysBrakeOnly, controlsBrakeHeld, Car.init,
    CarControls.brakeRiseRate, CarControls.brakeFallRate, min_def, max_def]

/-- C5 (amended): while the startup cue is reported as playing, a
`CarControls.update` tick behaves exactly as a tick with no startup cue and
the forward/backward keys released: only the throttle target is forced to
neutral (so the smoothed throttle decays toward zero rather than being
zeroed), and the brake, steering, handbrake and boost intents follow the raw
input unchanged. -/
theorem C5_startup_suppresses_only_throttle_target (M : MathFns)
    (maxSteeringAngle : ℚ) (keys : InputKeys) (cs : ControlsState) (car : CarState)
    (delta : ℚ) :
    CarControls.update M maxSteeringAngle keys true cs car delta =
      CarControls.update M maxSteeringAngle
        { keys with forward := false, backward := false } false cs car delta := rfl

/-! ## Claim C6 -/

/-- C6: converting geographic coordinates to local scene coordinates and
back recovers the original pair exactly in real arithmetic, for every city
center and every interpretation of `Math.cos`/`Math.PI`, provided π is
nonzero and the cosine of the center latitude is nonzero. -/
theorem C6_latlon_roundtrip (M : MathFns) (piQ centerLat centerLon lat lon : ℚ)
    (hpi : piQ ≠ 0) (hcos : M.cosF (centerLat * piQ / 180) ≠ 0) :
    SceneManager.localToLatLon M piQ centerLat centerLon
        (SceneManager.latLonToLocal M piQ centerLat centerLon lat lon).1
        (SceneManager.latLonToLocal M piQ centerLat centerLon lat lon).2 =
      (lat, lon) := by
  unfold SceneManager.latLonToLocal SceneManager.localToLatLon SceneManager.earthRadius
  rw [Prod.mk.injEq]
  constructor
  · field_simp
    ring
  · field_simp
    ring

/-- C6: witness at the Amsterdam-like center `(52, 5)` and the point
`(51, 4)`, with `cos := 1` and `π := 3`. -/
theorem C6_witness :
    SceneManager.localToLatLon mathFnsW 3 52 5
        (SceneManager.latLonToLocal mathFnsW 3 52 5 51 4).1
        (SceneManager.latLonToLocal mathFnsW 3 52 5 51 4).2 = (51, 4) :=
  C6_latlon_roundtrip mathFnsW 3 52 5 51 4 (by norm_num) (by norm_num [mathFnsW])

/-! ## Claim C7 -/

/-- C7: on each firing of the 5000 ms position-save timer (with a car
present and the map loaded), the position is persisted if and only if no
position has been saved yet or the current position differs from the last
saved one by more than the movement threshold (more than 1 scene unit in
`x` or in `z`; the `y` coordinate is not compared), and the recorded
last-saved position becomes the current position exactly when a save
occurs. -/
theorem C7_position_save_iff (pos : Vec3) (last : Option Vec3) :
    ((DrivingSimulator.positionSaveTick true true pos last).1 = true ↔
      last = none ∨
        ∃ l, last = some l ∧ (1 < |pos.x - l.x| ∨ 1 < |pos.z - l.z|)) ∧
    (DrivingSimulator.positionSaveTick true true pos last).2 =
      (if (DrivingSimulator.positionSaveTick true true pos last).1 = true then some pos
        else last) := by
  cases last with
  | none =>
      constructor
      · simp [DrivingSimulator.positionSaveTick]
      · simp [DrivingSimulator.positionSaveTick]
  | some l =>
      have hstep : DrivingSimulator.positionSaveTick true true pos (some l) =
          if 1 < |pos.x - l.x| ∨ 1 < |pos.z - l.z| then (true, some pos)
          else (false, some l) := rfl
      by_cases hc : 1 < |pos.x - l.x| ∨ 1 < |pos.z - l.z|
      · rw [hstep, if_pos hc]
        constructor
        · exact iff_of_true rfl (Or.inr ⟨l, rfl, hc⟩)
        · rfl
      · rw [hstep, if_neg hc]
        constructor
        · constructor
          · intro hfalse
            simp at hfalse
          · rintro (hnone | ⟨l', hl', hcond⟩)
            · simp at hnone
            · injection hl' with h
              subst h
              exact absurd hcond hc
        · simp

/-! ## Claim C8 -/

/-- C8: after disposing the previous session's vehicle and re-initializing
with a new city, `DrivingSimulator.init` constructs a fresh `Car`, so the
physics state equals the constructor defaults — speed `0`, throttle `0`,
brake `0`, steering `0`, handbrake off, boost off, boost meter at `100` —
whatever the previous session's car state was. -/
theorem C8_reinit_resets_physics (prev : Option CarState) (startPosition : Vec3) :
    (DrivingSimulator.initVehicle prev startPosition).speed = 0 ∧
    (DrivingSimulator.initVehicle prev startPosition).throttleInput = 0 ∧
    (DrivingSimulator.initVehicle prev startPosition).brakeInput = 0 ∧
    (DrivingSimulator.initVehicle prev startPosition).steeringAngle = 0 ∧
    (DrivingSimulator.initVehicle prev startPosition).handbrakeActive = false ∧
    (DrivingSimulator.initVehicle prev startPosition).isBoosting = false ∧
    (DrivingSimulator.initVehicle prev startPosition).boostAmount = 100 :=
  ⟨rfl, rfl, rfl, rfl, rfl, rfl, rfl⟩

/-! ## Claim C9 -/

/-- C9: `DrivingSimulator.getCarHeading` returns `0` when no vehicle
exists, and otherwise a heading in `[0, 360)` degrees, for every
`Math.atan2` result in its mathematical range `[-π, π]` and every positive
interpretation of `Math.PI`. -/
theorem C9_heading_range (piQ a : ℚ) (hpi : 0 < piQ) (hlo : -piQ ≤ a)
    (hhi : a ≤ piQ) :
    (0 ≤ DrivingSimulator.getCarHeading piQ (some a) ∧
      DrivingSimulator.getCarHeading piQ (some a) < 360) ∧
    DrivingSimulator.getCarHeading piQ none = 0 := by
  constructor
  · simp only [DrivingSimulator.getCarHeading]
    have h180 : (0 : ℚ) < 180 / piQ := by positivity
    have hub : a * (180 / piQ) ≤ 180 := by
      calc a * (180 / piQ) ≤ piQ * (180 / piQ) :=
            mul_le_mul_of_nonneg_right hhi (le_of_lt h180)
        _ = 180 := by
            field_simp
    have hlb : -180 ≤ a * (180 / piQ) := by
      have hm := mul_le_mul_of_nonneg_right hlo (le_of_lt h180)
      calc (-180 : ℚ) = -piQ * (180 / piQ) := by
            field_simp
            ring
        _ ≤ a * (180 / piQ) := hm
    split_ifs with h
    · constructor <;> linarith
    · push_neg at h
      constructor <;> linarith
  · rfl

/-- C9: witness at `π := 3` and `atan2` result `-2`. -/
theorem C9_witness :
    (0 ≤ DrivingSimulator.getCarHeading 3 (some (-2)) ∧
      DrivingSimulator.getCarHeading 3 (some (-2)) < 360) ∧
    DrivingSimulator.getCarHeading 3 none = 0 :=
  C9_heading_range 3 (-2) (by norm_num) (by norm_num) (by norm_num)

/-! ## Claim C10 -/

/-- C10: `Car.setRotation(y)` replaces the heading with the pure axis-angle
rotation by `y` around the world-up axis `(0, 1, 0)` — the quaternion
`(0, sin(y/2), 0, cos(y/2))` — and resets the steering angle to `0`, while
leaving speed, throttle input, brake input, handbrake, boost meter and
position unchanged. -/
theorem C10_setRotation_effect (M : MathFns) (s : CarState) (y : ℚ) :
    (Car.setRotation M s y).rotation = ⟨0, M.sinF (y / 2), 0, M.cosF (y / 2)⟩ ∧
    (Car.setRotation M s y).steeringAngle = 0 ∧
    (Car.setRotation M s y).speed = s.speed ∧
    (Car.setRotation M s y).throttleInput = s.throttleInput ∧
    (Car.setRotation M s y).brakeInput = s.brakeInput ∧
    (Car.setRotation M s y).handbrakeActive = s.handbrakeActive ∧
    (Car.setRotation M s y).boostAmount = s.boostAmount ∧
    (Car.setRotation M s y).position = s.position := by
  refine ⟨?_, rfl, rfl, rfl, rfl, rfl, rfl, rfl⟩
  simp [Car.setRotation, Quat.setFromAxisAngle]

end CityDrivingSim
